import Mathlib

/-!
Verification of the voice-recorder chunked-transcription core.

The definitions below are a shallow embedding of the Python sources:
`src/voice_recorder/state_manager.py` (lifecycle state machine and the
thread-safe audio accumulator) and `src/main.py` (the orchestrator's
audio-chunk callback, chunked transcription worker loop, session start
and session-end processing).  Audio samples are abstracted by a type
parameter `α` (the source uses float32 values; none of the verified
properties depend on the sample values, only on block structure and
slicing).  The per-method lock of the source serialises each method into
one atomic step, so every method is one pure function from manager state
to manager state (plus a returned value where the source returns one).
-/

namespace VoiceRecorder

/-- Recording states, from `RecordingState` in state_manager.py. -/
inductive RecordingState where
  | idle
  | recording
  | processing
deriving DecidableEq

/-- The fields of `StateManager` (state_manager.py) that the verified
claims concern: the lifecycle state, the audio buffer as the ordered list
of appended sample blocks, the last stored transcription, and the
processed-sample cursor. -/
structure StateManager (α : Type) where
  state : RecordingState
  audio_buffer : List (List α)
  last_transcription : String
  processed_sample_index : Nat
deriving DecidableEq

/-- Python slice `l[i:j]` for nonnegative bounds `i`, `j`. -/
def pySlice {α : Type} (l : List α) (i j : Nat) : List α :=
  (l.take j).drop i

namespace StateManager

variable {α : Type}

/-- `StateManager.__init__`: IDLE state, empty buffer, empty last
transcription, cursor 0. -/
def init (α : Type) : StateManager α :=
  ⟨RecordingState.idle, [], "", 0⟩

/-- The `valid_transitions` table inside `StateManager.transition_to`. -/
def valid_transitions : RecordingState → List RecordingState
  | RecordingState.idle => [RecordingState.recording]
  | RecordingState.recording => [RecordingState.processing, RecordingState.idle]
  | RecordingState.processing => [RecordingState.idle]

/-- `StateManager.transition_to`: checks the transition table and either
moves to the new state returning True, or stays put returning False. -/
def transition_to (sm : StateManager α) (new_state : RecordingState) :
    Bool × StateManager α :=
  if new_state ∈ valid_transitions sm.state then
    (true, { sm with state := new_state })
  else
    (false, sm)

/-- `StateManager.add_audio_chunk`: appends a block to the buffer tail. -/
def add_audio_chunk (sm : StateManager α) (chunk : List α) : StateManager α :=
  { sm with audio_buffer := sm.audio_buffer ++ [chunk] }

/-- `sum(len(chunk) for chunk in self._audio_buffer)`, the total sample
count computed inside several methods. -/
def bufferTotal (sm : StateManager α) : Nat :=
  (sm.audio_buffer.map List.length).sum

/-- `StateManager.get_total_samples`. -/
def get_total_samples (sm : StateManager α) : Nat :=
  if sm.audio_buffer.isEmpty then 0 else bufferTotal sm

/-- `StateManager.get_audio_data`: returns the concatenated audio and
clears the buffer's blocks; the cursor field is not touched by this
method. Returns None when the buffer is empty. -/
def get_audio_data (sm : StateManager α) : Option (List α) × StateManager α :=
  if sm.audio_buffer.isEmpty then (none, sm)
  else (some sm.audio_buffer.flatten, { sm with audio_buffer := [] })

/-- `StateManager.clear_buffer`: clears the blocks and resets the cursor
to 0. -/
def clear_buffer (sm : StateManager α) : StateManager α :=
  { sm with audio_buffer := [], processed_sample_index := 0 }

/-- `StateManager.get_next_chunk`: window extraction.  Nat subtraction
truncates at 0, matching the source's `max(0, processed - overlap)`; the
source's guard `processed >= total` runs before `total - processed` is
used, so truncated subtraction agrees with Python's int subtraction in
the remaining branch. -/
def get_next_chunk (sm : StateManager α) (chunk_size_samples overlap_samples : Nat) :
    Option (List α) :=
  if sm.audio_buffer.isEmpty then none
  else
    let total_samples := bufferTotal sm
    let start_idx := sm.processed_sample_index - overlap_samples
    let end_idx := start_idx + chunk_size_samples + overlap_samples
    if total_samples ≤ sm.processed_sample_index then none
    else if total_samples - sm.processed_sample_index < chunk_size_samples then none
    else some (pySlice sm.audio_buffer.flatten start_idx (min end_idx total_samples))

/-- `StateManager.mark_chunk_processed`: advances the cursor by the given
number of samples. -/
def mark_chunk_processed (sm : StateManager α) (num_samples : Nat) : StateManager α :=
  { sm with processed_sample_index := sm.processed_sample_index + num_samples }

/-- `StateManager.get_remaining_audio`: everything from
`max(0, processed - overlap)` to the end, or None when the buffer is
empty or everything is processed. -/
def get_remaining_audio (sm : StateManager α) (overlap_samples : Nat) : Option (List α) :=
  if sm.audio_buffer.isEmpty then none
  else
    let total_samples := bufferTotal sm
    if total_samples ≤ sm.processed_sample_index then none
    else some (sm.audio_buffer.flatten.drop (sm.processed_sample_index - overlap_samples))

/-- `StateManager.reset_chunk_tracking`: resets the cursor to 0 (called
when a new recording starts). -/
def reset_chunk_tracking (sm : StateManager α) : StateManager α :=
  { sm with processed_sample_index := 0 }

/-- `StateManager.set_last_transcription`. -/
def set_last_transcription (sm : StateManager α) (text : String) : StateManager α :=
  { sm with last_transcription := text }

/-- `StateManager.is_idle`. -/
def is_idle (sm : StateManager α) : Bool :=
  decide (sm.state = RecordingState.idle)

/-- `StateManager.is_recording`. -/
def is_recording (sm : StateManager α) : Bool :=
  decide (sm.state = RecordingState.recording)

end StateManager

/- ### Helper lemmas about the accumulator -/

theorem bufferTotal_eq_length_flatten {α : Type} (sm : StateManager α) :
    sm.bufferTotal = sm.audio_buffer.flatten.length := by
  simp [StateManager.bufferTotal]

theorem bufferTotal_nil {α : Type} (sm : StateManager α)
    (h : sm.audio_buffer = []) : sm.bufferTotal = 0 := by
  simp [StateManager.bufferTotal, h]

/-- The three None-guards of `get_next_chunk` collapse to the single
condition `total < cursor + chunkSize` once the chunk size is positive. -/
theorem get_next_chunk_eq_none_iff {α : Type} (sm : StateManager α)
    {chunk_size : Nat} (overlap : Nat) (hcs : 0 < chunk_size) :
    sm.get_next_chunk chunk_size overlap = none ↔
      sm.bufferTotal < sm.processed_sample_index + chunk_size := by
  rcases sm with ⟨s, buf, l, p⟩
  cases buf with
  | nil =>
    simp [StateManager.get_next_chunk, StateManager.bufferTotal]
    omega
  | cons c rest =>
    simp only [StateManager.get_next_chunk, List.isEmpty_cons, Bool.false_eq_true,
      if_false]
    split_ifs with h1 h2 <;> simp_all <;> omega

/-- When enough new audio is available, `get_next_chunk` returns exactly
the slice `[cursor - overlap, min (cursor - overlap + chunkSize + overlap) total)`
of the concatenated buffer. -/
theorem get_next_chunk_eq_some {α : Type} (sm : StateManager α)
    {chunk_size : Nat} (overlap : Nat) (hcs : 0 < chunk_size)
    (h : sm.processed_sample_index + chunk_size ≤ sm.bufferTotal) :
    sm.get_next_chunk chunk_size overlap =
      some (pySlice sm.audio_buffer.flatten (sm.processed_sample_index - overlap)
        (min (sm.processed_sample_index - overlap + chunk_size + overlap)
          sm.bufferTotal)) := by
  have h1 : ¬ sm.bufferTotal ≤ sm.processed_sample_index := by omega
  have h2 : ¬ sm.bufferTotal - sm.processed_sample_index < chunk_size := by omega
  rcases sm with ⟨s, buf, l, p⟩
  cases buf with
  | nil =>
    have := bufferTotal_nil (⟨s, [], l, p⟩ : StateManager α) rfl
    simp only [this] at h1
    omega
  | cons c rest =>
    simp only [StateManager.get_next_chunk, List.isEmpty_cons, Bool.false_eq_true,
      if_false]
    rw [if_neg h1, if_neg h2]

/-- `get_remaining_audio` is None exactly when everything is processed. -/
theorem get_remaining_audio_eq_none_iff {α : Type} (sm : StateManager α)
    (overlap : Nat) :
    sm.get_remaining_audio overlap = none ↔
      sm.bufferTotal ≤ sm.processed_sample_index := by
  rcases sm with ⟨s, buf, l, p⟩
  cases buf with
  | nil =>
    simp [StateManager.get_remaining_audio, StateManager.bufferTotal]
  | cons c rest =>
    simp only [StateManager.get_remaining_audio, List.isEmpty_cons,
      Bool.false_eq_true, if_false]
    split_ifs with h1 <;> simp_all

/-- When unprocessed audio remains, `get_remaining_audio` returns the tail
of the concatenated buffer from `max(0, cursor - overlap)`. -/
theorem get_remaining_audio_eq_some {α : Type} (sm : StateManager α)
    (overlap : Nat) (h : sm.processed_sample_index < sm.bufferTotal) :
    sm.get_remaining_audio overlap =
      some (sm.audio_buffer.flatten.drop (sm.processed_sample_index - overlap)) := by
  have h1 : ¬ sm.bufferTotal ≤ sm.processed_sample_index := by omega
  rcases sm with ⟨s, buf, l, p⟩
  cases buf with
  | nil =>
    have := bufferTotal_nil (⟨s, [], l, p⟩ : StateManager α) rfl
    simp only [this] at h1
    omega
  | cons c rest =>
    simp only [StateManager.get_remaining_audio, List.isEmpty_cons,
      Bool.false_eq_true, if_false]
    rw [if_neg h1]

/- ### Claim theorems: windowed extraction -/

/-- C1: for every buffer contents and cursor position (hence after any
interleaving of append and markProcessed calls) and a valid window
request (overlap < chunkSize), `get_next_chunk` returns None exactly when
`total - cursor < chunkSize`, and otherwise returns the contiguous slice
`[start, min(total, start + chunkSize + overlap))` of the concatenated
buffer, where `start = max(0, cursor - overlap)` (Nat subtraction is that
truncated subtraction). -/
theorem get_next_chunk_characterization {α : Type} (sm : StateManager α)
    (chunk_size overlap : Nat) (hov : overlap < chunk_size) :
    (sm.get_next_chunk chunk_size overlap = none ↔
      sm.bufferTotal < sm.processed_sample_index + chunk_size) ∧
    (sm.processed_sample_index + chunk_size ≤ sm.bufferTotal →
      sm.get_next_chunk chunk_size overlap =
        some (pySlice sm.audio_buffer.flatten
          (sm.processed_sample_index - overlap)
          (min sm.bufferTotal
            (sm.processed_sample_index - overlap + chunk_size + overlap)))) := by
  have hcs : 0 < chunk_size := by omega
  refine ⟨get_next_chunk_eq_none_iff sm overlap hcs, fun h => ?_⟩
  rw [get_next_chunk_eq_some sm overlap hcs h, Nat.min_comm]

/-- Witness for C1: buffer [[10,11,12,13,14]], cursor 2, chunkSize 2,
overlap 1: a window is available and is the slice [1, 4) = [11,12,13]. -/
theorem get_next_chunk_characterization_witness :
    ((⟨RecordingState.recording, [[10, 11, 12, 13, 14]], "", 2⟩ :
        StateManager Int).get_next_chunk 2 1 ≠ none) ∧
    ((⟨RecordingState.recording, [[10, 11, 12, 13, 14]], "", 2⟩ :
        StateManager Int).get_next_chunk 2 1 = some [11, 12, 13]) := by
  have h := get_next_chunk_characterization
    (⟨RecordingState.recording, [[10, 11, 12, 13, 14]], "", 2⟩ : StateManager Int)
    2 1 (by decide)
  constructor
  · rw [ne_eq, h.1]; decide
  · rw [h.2 (by decide)]; decide

/-- C2: `get_remaining_audio` returns None iff cursor ≥ total; otherwise
it returns the slice `[max(0, cursor - overlap), total)` of the
concatenated buffer, whose length is `total - cursor + min(overlap, cursor)`. -/
theorem get_remaining_audio_characterization {α : Type} (sm : StateManager α)
    (overlap : Nat) :
    (sm.get_remaining_audio overlap = none ↔
      sm.bufferTotal ≤ sm.processed_sample_index) ∧
    (sm.processed_sample_index < sm.bufferTotal →
      sm.get_remaining_audio overlap =
        some (sm.audio_buffer.flatten.drop (sm.processed_sample_index - overlap)) ∧
      (sm.audio_buffer.flatten.drop (sm.processed_sample_index - overlap)).length =
        sm.bufferTotal - sm.processed_sample_index +
          min overlap sm.processed_sample_index) := by
  refine ⟨get_remaining_audio_eq_none_iff sm overlap,
    fun h => ⟨get_remaining_audio_eq_some sm overlap h, ?_⟩⟩
  have hlen := bufferTotal_eq_length_flatten sm
  rw [List.length_drop, ← hlen]
  omega

/-- Witness for C2: buffer [[0,1],[2,3]], cursor 3, overlap 2: the tail
slice is [1,2,3], of length 4 - 3 + min 2 3 = 3. -/
theorem get_remaining_audio_characterization_witness :
    ((⟨RecordingState.processing, [[0, 1], [2, 3]], "", 3⟩ :
        StateManager Int).get_remaining_audio 2 = some [1, 2, 3]) ∧
    (3 : Nat) =
      (⟨RecordingState.processing, [[0, 1], [2, 3]], "", 3⟩ :
        StateManager Int).bufferTotal - 3 + min 2 3 := by
  have h := (get_remaining_audio_characterization
    (⟨RecordingState.processing, [[0, 1], [2, 3]], "", 3⟩ : StateManager Int) 2).2
    (by decide)
  refine ⟨by rw [h.1]; decide, by decide⟩

/- ### Claim theorems: cursor bookkeeping -/

/-- C6 counterexample: `get_audio_data` on buffer [[1,2,3]] with cursor 2
empties the buffer's blocks yet leaves the cursor at 2 (not 0), and
afterwards the cursor even exceeds the total (0), refuting both
"every operation that empties the buffer's blocks also returns the cursor
to 0" and the invariant cursor ≤ total. -/
theorem get_audio_data_cursor_not_reset :
    ((⟨RecordingState.processing, [[1, 2, 3]], "", 2⟩ :
        StateManager Int).get_audio_data.2.audio_buffer = []) ∧
    ((⟨RecordingState.processing, [[1, 2, 3]], "", 2⟩ :
        StateManager Int).get_audio_data.2.processed_sample_index = 2) ∧
    ¬ ((⟨RecordingState.processing, [[1, 2, 3]], "", 2⟩ :
          StateManager Int).get_audio_data.2.processed_sample_index ≤
        (⟨RecordingState.processing, [[1, 2, 3]], "", 2⟩ :
          StateManager Int).get_audio_data.2.bufferTotal) := by
  decide

/-- C6 amended: the cursor is a natural number (hence ≥ 0) and
`mark_chunk_processed` only increases it; `clear_buffer` empties the
blocks and resets the cursor to 0, and `reset_chunk_tracking` (run at
every new session start) resets it to 0; but `get_audio_data`, the one
other operation that empties the buffer's blocks, leaves the cursor
unchanged rather than returning it to 0. -/
theorem cursor_invariant_amended {α : Type} :
    ∀ (sm : StateManager α) (n : Nat),
      (sm.mark_chunk_processed n).processed_sample_index =
        sm.processed_sample_index + n ∧
      sm.processed_sample_index ≤
        (sm.mark_chunk_processed n).processed_sample_index ∧
      sm.clear_buffer.audio_buffer = [] ∧
      sm.clear_buffer.processed_sample_index = 0 ∧
      sm.reset_chunk_tracking.processed_sample_index = 0 ∧
      sm.get_audio_data.2.audio_buffer = [] ∧
      sm.get_audio_data.2.processed_sample_index =
        sm.processed_sample_index := by
  intro sm n
  refine ⟨rfl, Nat.le_add_right _ _, rfl, rfl, rfl, ?_, ?_⟩
  · unfold StateManager.get_audio_data
    split_ifs with hb
    · simpa using List.isEmpty_iff.mp hb
    · rfl
  · unfold StateManager.get_audio_data
    split_ifs with hb <;> rfl

/-- `iterate_mark cs N sm`: N successive `mark_chunk_processed cs` calls
with no intervening reset. -/
def iterate_mark {α : Type} (chunk_size : Nat) : Nat → StateManager α → StateManager α
  | 0, sm => sm
  | Nat.succ n, sm => iterate_mark chunk_size n (sm.mark_chunk_processed chunk_size)

theorem iterate_mark_cursor {α : Type} (chunk_size : Nat) :
    ∀ (n : Nat) (sm : StateManager α),
      (iterate_mark chunk_size n sm).processed_sample_index =
        sm.processed_sample_index + n * chunk_size
  | 0, sm => by simp [iterate_mark]
  | Nat.succ n, sm => by
    rw [iterate_mark, iterate_mark_cursor chunk_size n, Nat.succ_mul]
    simp [StateManager.mark_chunk_processed]
    omega

/-- C7: for a valid window request (overlap < chunkSize), starting from a
cursor of 0, N `mark_chunk_processed chunkSize` calls with no intervening
reset leave the cursor at exactly N x chunkSize; when N x chunkSize stays
within the appended total, so does the cursor; and each single call
advances the cursor by exactly its argument. -/
theorem mark_chunk_processed_accumulates {α : Type} (chunk_size overlap : Nat)
    (hov : overlap < chunk_size) (sm : StateManager α) (n : Nat)
    (h0 : sm.processed_sample_index = 0) :
    (iterate_mark chunk_size n sm).processed_sample_index = n * chunk_size ∧
    (n * chunk_size ≤ sm.bufferTotal →
      (iterate_mark chunk_size n sm).processed_sample_index ≤ sm.bufferTotal) ∧
    ∀ (sm2 : StateManager α) (m : Nat),
      (sm2.mark_chunk_processed m).processed_sample_index =
        sm2.processed_sample_index + m := by
  have hc := iterate_mark_cursor chunk_size n sm
  rw [h0] at hc
  exact ⟨by omega, fun hb => by omega, fun sm2 m => rfl⟩

/-- Witness for C7: chunkSize 3, overlap 1, buffer [[0,...,8]] (9 samples),
3 marks: the cursor lands on 9 = 3 x 3 and stays within the total. -/
theorem mark_chunk_processed_accumulates_witness :
    (iterate_mark 3 3 (⟨RecordingState.recording,
        [[0, 1, 2, 3, 4, 5, 6, 7, 8]], "", 0⟩ :
      StateManager Int)).processed_sample_index = 9 ∧
    (iterate_mark 3 3 (⟨RecordingState.recording,
        [[0, 1, 2, 3, 4, 5, 6, 7, 8]], "", 0⟩ :
      StateManager Int)).processed_sample_index ≤
      (⟨RecordingState.recording, [[0, 1, 2, 3, 4, 5, 6, 7, 8]], "", 0⟩ :
        StateManager Int).bufferTotal := by
  have h := mark_chunk_processed_accumulates 3 1 (by decide)
    (⟨RecordingState.recording, [[0, 1, 2, 3, 4, 5, 6, 7, 8]], "", 0⟩ :
      StateManager Int) 3 rfl
  exact ⟨h.1, h.2.1 (by decide)⟩

/-- C8: with 0 < overlap ≤ chunkSize, when a window w1 is available and,
after a single `mark_chunk_processed chunkSize` with no reset in between,
a second window w2 is also available, the two windows are the slices of
the concatenated buffer at the stated bounds, window 2's start is at most
window 1's cursor-advance point (cursor + chunkSize), it is at least
window 1's start, and both windows extend at least `overlap` samples past
window 2's start — so the two windows share at least `overlap` samples. -/
theorem consecutive_windows_overlap {α : Type} (sm : StateManager α)
    (chunk_size overlap : Nat) (hpos : 0 < overlap) (hov : overlap ≤ chunk_size)
    (w1 w2 : List α)
    (hw1 : sm.get_next_chunk chunk_size overlap = some w1)
    (hw2 : (sm.mark_chunk_processed chunk_size).get_next_chunk chunk_size overlap =
      some w2) :
    w1 = pySlice sm.audio_buffer.flatten (sm.processed_sample_index - overlap)
      (min (sm.processed_sample_index - overlap + chunk_size + overlap)
        sm.bufferTotal) ∧
    w2 = pySlice sm.audio_buffer.flatten
      (sm.processed_sample_index + chunk_size - overlap)
      (min (sm.processed_sample_index + chunk_size - overlap + chunk_size + overlap)
        sm.bufferTotal) ∧
    sm.processed_sample_index + chunk_size - overlap ≤
      sm.processed_sample_index + chunk_size ∧
    sm.processed_sample_index - overlap ≤
      sm.processed_sample_index + chunk_size - overlap ∧
    sm.processed_sample_index + chunk_size - overlap + overlap ≤
      min (min (sm.processed_sample_index - overlap + chunk_size + overlap)
          sm.bufferTotal)
        (min (sm.processed_sample_index + chunk_size - overlap + chunk_size + overlap)
          sm.bufferTotal) := by
  have hcs : 0 < chunk_size := by omega
  have h1 : sm.processed_sample_index + chunk_size ≤ sm.bufferTotal := by
    by_contra hc
    have heq := (get_next_chunk_eq_none_iff sm overlap hcs).mpr (by omega)
    rw [heq] at hw1
    exact Option.noConfusion hw1
  have h2 : sm.processed_sample_index + chunk_size + chunk_size ≤
      sm.bufferTotal := by
    by_contra hc
    have heq := (get_next_chunk_eq_none_iff (sm.mark_chunk_processed chunk_size)
      overlap hcs).mpr (by
        have e1 : (sm.mark_chunk_processed chunk_size).bufferTotal =
          sm.bufferTotal := rfl
        have e2 : (sm.mark_chunk_processed chunk_size).processed_sample_index =
          sm.processed_sample_index + chunk_size := rfl
        rw [e1, e2]
        omega)
    rw [heq] at hw2
    exact Option.noConfusion hw2
  have e1 := get_next_chunk_eq_some sm overlap hcs h1
  rw [e1] at hw1
  have e2 := get_next_chunk_eq_some (sm.mark_chunk_processed chunk_size)
    overlap hcs h2
  rw [e2] at hw2
  injection hw1 with hw1
  injection hw2 with hw2
  refine ⟨hw1.symm, hw2.symm, by omega, by omega, ?_⟩
  refine Nat.le_min.mpr ⟨Nat.le_min.mpr ⟨by omega, by omega⟩,
    Nat.le_min.mpr ⟨by omega, by omega⟩⟩

/-- Witness for C8: buffer [[0,1,2,3]], cursor 0, chunkSize 2, overlap 1:
window 1 is [0,1,2], after one mark window 2 is [1,2,3]; window 2's start
1 is at most the advance point 2 and the windows share sample indices
[1, 3). -/
theorem consecutive_windows_overlap_witness :
    ((⟨RecordingState.recording, [[0, 1, 2, 3]], "", 0⟩ :
        StateManager Int).get_next_chunk 2 1 = some [0, 1, 2]) ∧
    (((⟨RecordingState.recording, [[0, 1, 2, 3]], "", 0⟩ :
        StateManager Int).mark_chunk_processed 2).get_next_chunk 2 1 =
      some [1, 2, 3]) ∧
    (0 : Nat) + 2 - 1 ≤ 0 + 2 ∧
    ([1, 2, 3] : List Int) = pySlice [0, 1, 2, 3] (0 + 2 - 1)
      (min (0 + 2 - 1 + 2 + 1) 4) := by
  have h := consecutive_windows_overlap
    (⟨RecordingState.recording, [[0, 1, 2, 3]], "", 0⟩ : StateManager Int)
    2 1 (by decide) (by decide) [0, 1, 2] [1, 2, 3] (by decide) (by decide)
  exact ⟨by decide, by decide, h.2.2.1, h.2.1⟩

/- ### The orchestrator layer (main.py) -/

/-- The fields of `VoiceRecorderApp` (main.py) that the verified claims
concern: the shared StateManager and the worker's accumulated
transcription string. -/
structure AppState (α : Type) where
  state_manager : StateManager α
  accumulated_transcription : String
deriving DecidableEq

/-- `VoiceRecorderApp._on_audio_chunk`: the capture callback appends the
delivered block only when the state machine is in RECORDING. -/
def on_audio_chunk {α : Type} (app : AppState α) (chunk : List α) : AppState α :=
  if app.state_manager.is_recording then
    { app with state_manager := app.state_manager.add_audio_chunk chunk }
  else app

/-- The transcript-append step shared by the worker (main.py lines
147-156) and the final pass (lines 210-216): a non-empty chunk result is
appended with a single separating space when the accumulated text is
non-empty, becomes the whole text when it is empty, and an empty chunk
result (falsy in Python) changes nothing. -/
def appendChunkText (acc chunk_text : String) : String :=
  if chunk_text = "" then acc
  else if acc = "" then chunk_text
  else acc ++ " " ++ chunk_text

/-- One iteration of the loop body of
`VoiceRecorderApp._chunked_transcription_worker` (main.py lines 120-169).
The transcription call is abstracted as `tr`; `Except.error` models a
raised exception.  On success the result is appended (empty results
change nothing) and then `mark_chunk_processed chunk_size` runs; the
`except` handler only logs, so on an exception nothing else happens and
the loop continues — in particular `mark_chunk_processed` is skipped.
When no window is available the iteration only sleeps. -/
def worker_iteration {α : Type} (chunk_size overlap : Nat)
    (tr : List α → String → Except String String) (app : AppState α) :
    AppState α :=
  match app.state_manager.get_next_chunk chunk_size overlap with
  | none => app
  | some chunk_audio =>
    match tr chunk_audio app.accumulated_transcription with
    | Except.error _ => app
    | Except.ok chunk_text =>
      let new_acc := appendChunkText app.accumulated_transcription chunk_text
      let app1 := { app with accumulated_transcription := new_acc }
      { app1 with
          state_manager := app1.state_manager.mark_chunk_processed chunk_size }

/-- The chunked-mode branch of `VoiceRecorderApp._process_recording`
(main.py lines 188-226, the common tail 262-293 and the `finally` block
300-306), with the final transcription call abstracted as `tr`
(`Except.error` models an exception).  Thread join, UI updates, printing,
temp-file cleanup and clipboard handling are omitted as they do not touch
the modelled state.  The `finally` block transitions the state machine to
IDLE and clears the accumulated transcription; nothing on this branch
touches the audio buffer or the processed cursor. -/
def process_recording_chunked {α : Type} (overlap : Nat)
    (tr : List α → String → Except String String) (app : AppState α) :
    AppState α :=
  let app1 :=
    match app.state_manager.get_remaining_audio overlap with
    | none => app
    | some remaining_audio =>
      if remaining_audio.length > 0 then
        match tr remaining_audio app.accumulated_transcription with
        | Except.error _ => app
        | Except.ok final_text =>
          let new_acc := appendChunkText app.accumulated_transcription final_text
          { app with accumulated_transcription := new_acc }
      else app
  let text := app1.accumulated_transcription
  let app2 :=
    if text = "" then app1
    else { app1 with state_manager :=
      app1.state_manager.set_last_transcription text }
  { app2 with
    accumulated_transcription := "",
    state_manager := (app2.state_manager.transition_to RecordingState.idle).2 }

/-- The session-start branch of `VoiceRecorderApp._toggle_recording`
(main.py lines 75-93): from IDLE, transition to RECORDING and, when the
transition succeeds, reset the chunk cursor and clear the accumulated
transcription.  The audio buffer is not cleared here. -/
def toggle_recording_start {α : Type} (app : AppState α) : AppState α :=
  if app.state_manager.is_idle then
    let t := app.state_manager.transition_to RecordingState.recording
    if t.1 then
      { app with
          state_manager := t.2.reset_chunk_tracking,
          accumulated_transcription := "" }
    else app
  else app

/- ### Claim theorems: state machine -/

/-- C5: `transition_to` succeeds (returns True and sets the state to the
target) exactly for the four pairs Idle→Recording, Recording→Processing,
Recording→Idle, Processing→Idle; every other pair returns False and
leaves the manager unchanged.  The initial state is Idle. -/
theorem transition_to_characterization {α : Type} :
    (StateManager.init α).state = RecordingState.idle ∧
    ∀ (sm : StateManager α) (t : RecordingState),
      (((sm.transition_to t).1 = true ∧
          (sm.transition_to t).2 = { sm with state := t }) ↔
        ((sm.state = RecordingState.idle ∧ t = RecordingState.recording) ∨
         (sm.state = RecordingState.recording ∧ t = RecordingState.processing) ∨
         (sm.state = RecordingState.recording ∧ t = RecordingState.idle) ∨
         (sm.state = RecordingState.processing ∧ t = RecordingState.idle))) ∧
      (¬ ((sm.state = RecordingState.idle ∧ t = RecordingState.recording) ∨
          (sm.state = RecordingState.recording ∧ t = RecordingState.processing) ∨
          (sm.state = RecordingState.recording ∧ t = RecordingState.idle) ∨
          (sm.state = RecordingState.processing ∧ t = RecordingState.idle)) →
        sm.transition_to t = (false, sm)) := by
  refine ⟨rfl, fun sm t => ?_⟩
  rcases sm with ⟨s, b, l, p⟩
  cases s <;> cases t <;>
    simp [StateManager.transition_to, StateManager.valid_transitions]

/-- Witness for C5 at concrete inputs: Recording→Processing succeeds and
Processing→Recording fails, leaving the manager unchanged. -/
theorem transition_to_characterization_witness :
    ((⟨RecordingState.recording, [], "", 0⟩ : StateManager Int).transition_to
        RecordingState.processing =
      (true, ⟨RecordingState.processing, [], "", 0⟩)) ∧
    ((⟨RecordingState.processing, [], "", 0⟩ : StateManager Int).transition_to
        RecordingState.recording =
      (false, ⟨RecordingState.processing, [], "", 0⟩)) := by
  have h := (@transition_to_characterization Int).2
  refine ⟨?_, (h ⟨RecordingState.processing, [], "", 0⟩ RecordingState.recording).2
    (by simp)⟩
  have h1 := (h ⟨RecordingState.recording, [], "", 0⟩ RecordingState.processing).1.mpr
    (by simp)
  exact Prod.ext h1.1 h1.2

/- ### Claim theorems: orchestrator and worker -/

/-- C10: a block delivered by the capture callback is appended to the
buffer only while the state machine is in RECORDING (cursor untouched);
a block delivered in any other state is discarded and the whole app state
— block list, total sample count, cursor — is unchanged. -/
theorem on_audio_chunk_gating {α : Type} (app : AppState α) (chunk : List α) :
    (app.state_manager.state = RecordingState.recording →
      (on_audio_chunk app chunk).state_manager.audio_buffer =
        app.state_manager.audio_buffer ++ [chunk] ∧
      (on_audio_chunk app chunk).state_manager.processed_sample_index =
        app.state_manager.processed_sample_index) ∧
    (app.state_manager.state ≠ RecordingState.recording →
      on_audio_chunk app chunk = app) := by
  constructor
  · intro h
    simp [on_audio_chunk, StateManager.is_recording, h,
      StateManager.add_audio_chunk]
  · intro h
    simp [on_audio_chunk, StateManager.is_recording, h]

/-- Witness for C10: in RECORDING the block [2] is appended after [[1]];
in IDLE the same delivery leaves the app unchanged. -/
theorem on_audio_chunk_gating_witness :
    (on_audio_chunk (⟨⟨RecordingState.recording, [[1]], "", 0⟩, ""⟩ :
        AppState Int) [2]).state_manager.audio_buffer = [[1], [2]] ∧
    on_audio_chunk (⟨⟨RecordingState.idle, [[1]], "", 0⟩, "t"⟩ :
        AppState Int) [2] = ⟨⟨RecordingState.idle, [[1]], "", 0⟩, "t"⟩ := by
  constructor
  · have h := (on_audio_chunk_gating
      (⟨⟨RecordingState.recording, [[1]], "", 0⟩, ""⟩ : AppState Int) [2]).1 rfl
    rw [h.1]
    decide
  · exact (on_audio_chunk_gating
      (⟨⟨RecordingState.idle, [[1]], "", 0⟩, "t"⟩ : AppState Int) [2]).2
      (by decide)

/-- C9: the accumulated transcript is the left-to-right single-space join
of the per-chunk results: an empty result changes nothing (no extra
space), a non-empty result on an empty transcript becomes the transcript
(no leading space), a non-empty result on a non-empty transcript is
preceded by exactly one space; folding the results "hello" then "world"
yields "hello world". -/
theorem transcript_join_spec :
    (∀ acc : String, appendChunkText acc "" = acc) ∧
    (∀ chunk : String, chunk ≠ "" → appendChunkText "" chunk = chunk) ∧
    (∀ acc chunk : String, acc ≠ "" → chunk ≠ "" →
      appendChunkText acc chunk = acc ++ " " ++ chunk) ∧
    List.foldl appendChunkText "" ["hello", "world"] = "hello world" := by
  refine ⟨fun acc => by simp [appendChunkText],
    fun chunk h => by simp [appendChunkText, h],
    fun acc chunk ha hc => by simp [appendChunkText, ha, hc],
    by decide⟩

/-- Witness for C9 at concrete strings. -/
theorem transcript_join_spec_witness :
    appendChunkText "hello" "world" = "hello world" ∧
    appendChunkText "" "hello" = "hello" ∧
    appendChunkText "hello" "" = "hello" := by
  refine ⟨?_, transcript_join_spec.2.1 "hello" (by decide),
    transcript_join_spec.1 "hello"⟩
  have h := transcript_join_spec.2.2.1 "hello" "world" (by decide) (by decide)
  rw [h]
  decide

/-- C4 (code bug): one worker-loop iteration on buffer [[0,1,2,3]],
cursor 0, chunkSize 2, overlap 1, where the transcription call raises an
exception.  The worker survives the failure and the previously
accumulated transcript "prev" is untouched — those parts of the claim
hold — but because the `except` handler skips `mark_chunk_processed`,
the cursor stays 0 and the next iteration extracts the very same window
[0,1,2] again: the failed window IS retried, contradicting the claim
(and the source's own comment "Continue with next chunk despite error"). -/
theorem worker_iteration_retries_failed_window :
    ((⟨⟨RecordingState.recording, [[0, 1, 2, 3]], "", 0⟩, "prev"⟩ :
        AppState Int).state_manager.get_next_chunk 2 1 = some [0, 1, 2]) ∧
    (worker_iteration 2 1 (fun _ _ => Except.error "model failure")
        (⟨⟨RecordingState.recording, [[0, 1, 2, 3]], "", 0⟩, "prev"⟩ :
          AppState Int)).accumulated_transcription = "prev" ∧
    (worker_iteration 2 1 (fun _ _ => Except.error "model failure")
        (⟨⟨RecordingState.recording, [[0, 1, 2, 3]], "", 0⟩, "prev"⟩ :
          AppState Int)).state_manager.processed_sample_index = 0 ∧
    (worker_iteration 2 1 (fun _ _ => Except.error "model failure")
        (⟨⟨RecordingState.recording, [[0, 1, 2, 3]], "", 0⟩, "prev"⟩ :
          AppState Int)).state_manager.get_next_chunk 2 1 = some [0, 1, 2] := by
  decide

/-- C3 (code bug): a chunked-mode session ending with all audio processed
(buffer [[7,8,9]], cursor 3, accumulated transcript "hi") does transition
the state machine to IDLE and clear the transcript, but the audio buffer
still holds its block and the cursor stays 3 — `clear_buffer` is never
called on this path.  The next session start only resets the cursor and
transcript, so the previous session's audio is still in the buffer when
the next session begins and `get_next_chunk` hands it out again. -/
theorem process_recording_leaves_buffer :
    ((process_recording_chunked 1 (fun _ _ => Except.ok "x")
        (⟨⟨RecordingState.processing, [[7, 8, 9]], "", 3⟩, "hi"⟩ :
          AppState Int)).state_manager.state = RecordingState.idle) ∧
    ((process_recording_chunked 1 (fun _ _ => Except.ok "x")
        (⟨⟨RecordingState.processing, [[7, 8, 9]], "", 3⟩, "hi"⟩ :
          AppState Int)).accumulated_transcription = "") ∧
    ((process_recording_chunked 1 (fun _ _ => Except.ok "x")
        (⟨⟨RecordingState.processing, [[7, 8, 9]], "", 3⟩, "hi"⟩ :
          AppState Int)).state_manager.audio_buffer = [[7, 8, 9]]) ∧
    ((process_recording_chunked 1 (fun _ _ => Except.ok "x")
        (⟨⟨RecordingState.processing, [[7, 8, 9]], "", 3⟩, "hi"⟩ :
          AppState Int)).state_manager.processed_sample_index = 3) ∧
    ((toggle_recording_start (process_recording_chunked 1
        (fun _ _ => Except.ok "x")
        (⟨⟨RecordingState.processing, [[7, 8, 9]], "", 3⟩, "hi"⟩ :
          AppState Int))).state_manager.audio_buffer = [[7, 8, 9]]) ∧
    ((toggle_recording_start (process_recording_chunked 1
        (fun _ _ => Except.ok "x")
        (⟨⟨RecordingState.processing, [[7, 8, 9]], "", 3⟩, "hi"⟩ :
          AppState Int))).state_manager.get_next_chunk 3 0 = some [7, 8, 9]) := by
  decide

end VoiceRecorder
